import Mathlib

/-!
Shallow embedding of the authentication subsystem of the PodWeb repository
(`src/nasa/auth.py`, `src/nasa/routes.py`).  Machine strings are Lean
`String`s (Python `len` counts code points, as does `String.length`); time
is measured in minutes as a `Nat`.  The ORM model class file `models.py`
is not part of the sources; the `User` methods it provides are modelled
from the specification and marked as such.
-/

namespace PodWeb

/-! ### Character classes

`validate_password` (auth.py) tests the four categories with the regexes
`[A-Z]`, `[a-z]`, `\d` and `[^A-Za-z0-9]`.  The `\d` class is modelled by
the decimal digits `0`-`9` (the spec's "decimal digit"). -/

def isUpperAZ (c : Char) : Bool := 'A' ≤ c && c ≤ 'Z'

def isLowerAZ (c : Char) : Bool := 'a' ≤ c && c ≤ 'z'

def isDigit09 (c : Char) : Bool := '0' ≤ c && c ≤ '9'

/-- The regex `[^A-Za-z0-9]` of auth.py line 21: any character that is not
an ASCII letter or digit counts as a "symbol". -/
def isSymbolRe (c : Char) : Bool := !(isUpperAZ c || isLowerAZ c || isDigit09 c)

/-! ### PasswordPolicy — `validate_password` (auth.py lines 6-35) -/

def tooShortMsg : String := "Password must be at least 16 characters long"

def complexityMsg : String :=
  "Password must contain at least 3 of: uppercase, lowercase, number, symbol"

/-- The number of the four category flags that hold for `password`,
as summed by auth.py lines 17-30. -/
def categoryCount (password : String) : Nat :=
  (if password.data.any isUpperAZ then 1 else 0) +
  (if password.data.any isLowerAZ then 1 else 0) +
  (if password.data.any isDigit09 then 1 else 0) +
  (if password.data.any isSymbolRe then 1 else 0)

/-- `validate_password` of auth.py: `(is_valid, error_message)`. -/
def validate_password (password : String) : Bool × String :=
  if password.length < 16 then
    (false, tooShortMsg)
  else if categoryCount password < 3 then
    (false, complexityMsg)
  else
    (true, "")

/-! ### The inline complexity checks duplicated in routes.py -/

/-- The literal symbol set `'!@#$%^&*()_+-=[]{}|;:,.<>?'` used by the inline
checks in routes.py (registration line 141, admin reset line 685). -/
def inlineSymbols : List Char := "!@#$%^&*()_+-=[]\x7b\x7d|;:,.<>?".data

/-- Python's `str.isupper` / `islower` / `isdigit` restricted to the ASCII
plane, which is where the inline checks are compared with the policy. -/
def pyIsUpper (c : Char) : Bool := 'A' ≤ c && c ≤ 'Z'

def pyIsLower (c : Char) : Bool := 'a' ≤ c && c ≤ 'z'

def pyIsDigit (c : Char) : Bool := '0' ≤ c && c ≤ '9'

/-- The `complexity_count` computed inline by the registration route
(routes.py lines 134-142). -/
def register_complexity_count (password : String) : Nat :=
  (if password.data.any pyIsUpper then 1 else 0) +
  (if password.data.any pyIsLower then 1 else 0) +
  (if password.data.any pyIsDigit then 1 else 0) +
  (if password.data.any (fun c => inlineSymbols.contains c) then 1 else 0)

/-- The registration route's inline password-strength gate
(routes.py lines 130-147): length at least 16 and at least 3 categories. -/
def register_password_ok (password : String) : Bool :=
  !(password.length < 16) && !(register_complexity_count password < 3)

/-- The `complexity_count` computed inline by the admin reset-password route
(routes.py lines 678-686); textually identical to the registration one. -/
def reset_complexity_count (password : String) : Nat :=
  (if password.data.any pyIsUpper then 1 else 0) +
  (if password.data.any pyIsLower then 1 else 0) +
  (if password.data.any pyIsDigit then 1 else 0) +
  (if password.data.any (fun c => inlineSymbols.contains c) then 1 else 0)

/-- The admin reset-password route's inline password-strength gate
(routes.py lines 674-690). -/
def reset_password_ok (password : String) : Bool :=
  !(password.length < 16) && !(reset_complexity_count password < 3)

/-! ### Python `str.strip` -/

def stripList (l : List Char) : List Char :=
  ((l.dropWhile Char.isWhitespace).reverse.dropWhile Char.isWhitespace).reverse

/-- Python's `str.strip()`: drop whitespace from both ends. -/
def pyStrip (s : String) : String := ⟨stripList s.data⟩

/-! ### Data model -/

/-- Modelled from the spec: werkzeug's `generate_password_hash` is an external
library; the only property of the hash this subsystem uses is that verifying a
submitted password against `generate_password_hash p` succeeds exactly when the
submission equals `p`, so the hash value is represented by the password itself. -/
def generate_password_hash (plaintext : String) : String := plaintext

/-- The `User` ORM row (fields per §3 of the spec and their uses in routes.py). -/
structure User where
  id : Nat
  username : String
  email : String
  password_hash : String
  failed_login_attempts : Nat
  locked_until : Option Nat
  is_approved : Bool
  is_active : Bool
  is_admin : Bool
deriving Repr, DecidableEq

/-- Modelled from the spec: `verify(account, plaintext)` (§4.2) — the method
`User.check_password` lives in the absent `models.py`; it compares the
submitted password against `passwordHash` and returns a Bool. -/
def User.check_password (u : User) (password : String) : Bool :=
  u.password_hash == generate_password_hash password

/-- Modelled from the spec: `isLocked(account, now)` (§4.2) — the method
`User.is_locked` lives in the absent `models.py`: true iff `lockedUntil` is
set and `now < lockedUntil`. -/
def User.is_locked (u : User) (now : Nat) : Bool :=
  match u.locked_until with
  | some t => now < t
  | none => false

/-- Modelled from the spec: `recordFailure(account, now)` (§4.2) — the method
`User.increment_failed_login` lives in the absent `models.py`: it increments
`failedLoginCount` and, when the post-increment count reaches the threshold 10,
sets `lockedUntil = now + 30` minutes. -/
def User.increment_failed_login (u : User) (now : Nat) : User :=
  let n := u.failed_login_attempts + 1
  { u with
      failed_login_attempts := n
      locked_until := if 10 ≤ n then some (now + 30) else u.locked_until }

/-- Modelled from the spec: `recordSuccess(account)` (§4.2) — the method
`User.reset_failed_logins` lives in the absent `models.py`: it sets
`failedLoginCount = 0` and clears `lockedUntil`. -/
def User.reset_failed_logins (u : User) : User :=
  { u with failed_login_attempts := 0, locked_until := none }

/-- Modelled from the spec: the `LoginAttempt` ORM row (§3
`LoginAttemptRecord`) lives in the absent `models.py`; its fields are those
populated by `log_login_attempt` in auth.py lines 54-59. -/
structure LoginAttempt where
  username : String
  ip_address : String
  success : Bool
  user_agent : String
deriving Repr, DecidableEq

/-- `log_login_attempt` of auth.py lines 48-64, with the outcome of the
database commit made explicit as `persistOk`: on success the record is
appended; any exception is caught, logged and the session rolled back, so on
failure the attempt log is left unchanged and no error escapes. -/
def log_login_attempt (attempts : List LoginAttempt) (username : String)
    (success : Bool) (client_ip user_agent : String) (persistOk : Bool) :
    List LoginAttempt :=
  if persistOk then
    attempts ++ [⟨username, client_ip, success, user_agent⟩]
  else
    attempts

/-! ### The login route (routes.py lines 182-233) -/

/-- The database-backed state the login route reads and writes, plus the
cookie session. -/
structure AppState where
  users : List User
  attempts : List LoginAttempt
  session_user : Option Nat
deriving Repr, DecidableEq

/-- The flash message categories produced by the login POST handler. -/
inductive Flash where
  | fieldsRequired
  | lockedNotice (lockedUntil : Nat)
  | invalidPassword (remaining : Int)
  | lockoutNotice
deriving Repr, DecidableEq

/-- The observable outcome of a login POST: re-render the login form with a
flash, redirect to the dashboard, or an uncaught Python `TypeError`
(routes.py lines 197 and 203 pass four positional arguments to
`log_login_attempt`, which accepts at most three). -/
inductive LoginView where
  | loginForm (flash : Flash)
  | dashboardRedirect (username : String)
  | typeError
deriving Repr, DecidableEq

/-- `User.query.filter_by(username=...).first()`. -/
def findUser (users : List User) (username : String) : Option User :=
  users.find? (fun u => u.username == username)

/-- `db.session.commit()` of a mutated ORM row: replace the row with the
matching id. -/
def updateUser (users : List User) (u : User) : List User :=
  users.map (fun v => if v.id == u.id then u else v)

/-- The login POST handler (routes.py lines 182-233).  `client_ip` and
`user_agent` are the request attributes read by `get_client_ip` and
`log_login_attempt`; `now` is the current time in minutes; `auditOk` is
whether the audit-log commit inside `log_login_attempt` succeeds. -/
def login (st : AppState) (usernameRaw password client_ip user_agent : String)
    (now : Nat) (auditOk : Bool) : LoginView × AppState :=
  let username := pyStrip usernameRaw
  if username == "" || password == "" then
    (.loginForm .fieldsRequired, st)
  else
    match findUser st.users username with
    | none =>
        -- line 197: `log_login_attempt(username, client_ip, False, "User not found")`
        -- — four positional arguments to a three-parameter function, so Python
        -- raises TypeError before any record is built; the exception escapes.
        (.typeError, st)
    | some user =>
        if !user.is_approved then
          -- line 203: the same four-argument call, same TypeError.
          (.typeError, st)
        else if user.is_locked now then
          (.loginForm (.lockedNotice (user.locked_until.getD 0)), st)
        else if user.check_password password then
          let u1 := user.reset_failed_logins
          let st1 : AppState := { st with users := updateUser st.users u1 }
          let st2 : AppState := { st1 with session_user := some user.id }
          let st3 : AppState :=
            { st2 with attempts :=
                log_login_attempt st2.attempts username true client_ip user_agent auditOk }
          (.dashboardRedirect user.username, st3)
        else
          let u1 := user.increment_failed_login now
          let st1 : AppState := { st with users := updateUser st.users u1 }
          let st2 : AppState :=
            { st1 with attempts :=
                log_login_attempt st1.attempts username false client_ip user_agent auditOk }
          let remaining : Int := 10 - (u1.failed_login_attempts : Int)
          (.loginForm (if 0 < remaining then .invalidPassword remaining else .lockoutNotice),
           st2)

/-- Run one login attempt per element of `times`, threading the state. -/
def loginTimes (st : AppState) (usernameRaw password client_ip user_agent : String)
    (auditOk : Bool) : List Nat → AppState
  | [] => st
  | t :: ts =>
      loginTimes (login st usernameRaw password client_ip user_agent t auditOk).2
        usernameRaw password client_ip user_agent auditOk ts

/-! ### The admin reset-password route (routes.py lines 650-706) -/

/-- The observable outcome of the admin reset-password POST. -/
inductive ResetView where
  | accessDenied
  | fieldsRequired
  | mismatch
  | tooShort
  | lowComplexity
  | success
deriving Repr, DecidableEq

/-- The admin reset-password POST handler (routes.py lines 650-706):
`current_user` is the session user; `target` the user whose password is
reset.  Returns the outcome and the (possibly updated) target row. -/
def reset_password (current_user : Option User) (target : User)
    (new_password confirm_password : String) : ResetView × User :=
  match current_user with
  | none => (.accessDenied, target)
  | some u =>
      if !u.is_admin then (.accessDenied, target)
      else if new_password == "" || confirm_password == "" then
        (.fieldsRequired, target)
      else if new_password != confirm_password then (.mismatch, target)
      else if new_password.length < 16 then (.tooShort, target)
      else if reset_complexity_count new_password < 3 then (.lowComplexity, target)
      else
        (.success,
         { target with
             password_hash := generate_password_hash new_password
             failed_login_attempts := 0
             locked_until := none })


/-! ### Helper lemmas -/

theorem any_congr_mem {l : List Char} {f g : Char → Bool}
    (h : ∀ c ∈ l, f c = g c) : l.any f = l.any g := by
  induction l with
  | nil => rfl
  | cons a l ih =>
      simp only [List.any_cons, h a (List.mem_cons_self a l),
        ih fun c hc => h c (List.mem_cons_of_mem a hc)]

theorem inlineSymbols_are_symbols : ∀ c ∈ inlineSymbols, isSymbolRe c = true := by decide

theorem inlineContains_iff {c : Char} : inlineSymbols.contains c = true ↔ c ∈ inlineSymbols :=
  List.elem_iff

theorem inlineContains_eq_isSymbolRe {c : Char}
    (h : isUpperAZ c ∨ isLowerAZ c ∨ isDigit09 c ∨ c ∈ inlineSymbols) :
    inlineSymbols.contains c = isSymbolRe c := by
  rcases h with h | h | h | h
  case inr.inr.inr =>
    rw [inlineSymbols_are_symbols c h]
    exact inlineContains_iff.mpr h
  all_goals
    have h1 : isSymbolRe c = false := by
      simp [isSymbolRe, isUpperAZ, isLowerAZ, isDigit09] at h ⊢
      simp [h]
    rw [h1]
    cases hcc : inlineSymbols.contains c
    · rfl
    · have := inlineSymbols_are_symbols c (inlineContains_iff.mp hcc)
      rw [h1] at this
      exact absurd this Bool.false_ne_true

/-- Claim C4: for all passwords p, `validate_password p` is valid iff p has at
least 16 characters and at least 3 of the 4 category flags hold; when the
length is below 16 it fails with the TooShort message, and when the length is
at least 16 but fewer than 3 categories are present it fails with the
InsufficientComplexity message. -/
theorem validate_password_spec (p : String) :
    ((validate_password p).1 = true ↔ 16 ≤ p.length ∧ 3 ≤ categoryCount p) ∧
    (p.length < 16 → validate_password p = (false, tooShortMsg)) ∧
    (16 ≤ p.length → categoryCount p < 3 → validate_password p = (false, complexityMsg)) := by
  unfold validate_password
  by_cases hl : p.length < 16
  · simp [hl]
    try omega
  · by_cases hc : categoryCount p < 3
    · simp [hl, hc]
      try omega
    · simp [hl, hc]
      try omega

/-- Witness for C4 at the spec's three test vectors. -/
theorem validate_password_spec_witness :
    validate_password "Sh0rt!" = (false, tooShortMsg) ∧
    validate_password "aaaaaaaaaaaaaaaaaaaa" = (false, complexityMsg) ∧
    (validate_password "Aa1!Aa1!Aa1!Aa1!").1 = true :=
  ⟨(validate_password_spec "Sh0rt!").2.1 (by decide),
   (validate_password_spec "aaaaaaaaaaaaaaaaaaaa").2.2 (by decide) (by decide),
   ((validate_password_spec "Aa1!Aa1!Aa1!Aa1!").1).mpr (by decide)⟩

/-- Claim C5 is false as stated: at the 16-character password
`abcdefgh1234567~` the policy `validate_password` accepts (lower, digit and
the regex-symbol tilde give 3 categories) while both inline call-site checks
reject it, because the tilde is not in their literal symbol list. -/
theorem inline_check_counterexample :
    (validate_password "abcdefgh1234567~").1 = true ∧
    register_password_ok "abcdefgh1234567~" = false ∧
    reset_password_ok "abcdefgh1234567~" = false := by decide

/-- Claim C5 amended: the registration and admin reset-password inline checks
are one and the same predicate, and on every password whose characters are all
ASCII letters, digits or members of the inline symbol list they accept exactly
when `validate_password` accepts; the equivalence fails only on passwords
containing a symbol outside that list. -/
theorem inline_checks_agree (p : String)
    (h : ∀ c ∈ p.data, isUpperAZ c ∨ isLowerAZ c ∨ isDigit09 c ∨ c ∈ inlineSymbols) :
    register_password_ok p = reset_password_ok p ∧
    register_password_ok p = (validate_password p).1 := by
  refine ⟨rfl, ?_⟩
  have hsym : p.data.any (fun c => inlineSymbols.contains c) = p.data.any isSymbolRe :=
    any_congr_mem fun c hc => inlineContains_eq_isSymbolRe (h c hc)
  have hcnt : register_complexity_count p = categoryCount p := by
    unfold register_complexity_count categoryCount
    rw [hsym]
    rfl
  unfold register_password_ok validate_password
  rw [hcnt]
  by_cases hl : p.length < 16
  · simp [hl]
  · by_cases hc : categoryCount p < 3
    · simp [hl, hc]
    · simp [hl, hc]

/-- Witness for the amended C5 at a password inside the common alphabet. -/
theorem inline_checks_agree_witness :
    register_password_ok "Aa1!Aa1!Aa1!Aa1!" = reset_password_ok "Aa1!Aa1!Aa1!Aa1!" ∧
    register_password_ok "Aa1!Aa1!Aa1!Aa1!" = (validate_password "Aa1!Aa1!Aa1!Aa1!").1 :=
  inline_checks_agree "Aa1!Aa1!Aa1!Aa1!" (by decide)

/-- Claim C10: a login POST whose stripped username or whose password is
empty returns the validation message and leaves the entire state — accounts,
audit trail and session — untouched. -/
theorem empty_fields_leave_no_trace (st : AppState)
    (usernameRaw password client_ip user_agent : String) (now : Nat) (auditOk : Bool)
    (h : pyStrip usernameRaw = "" ∨ password = "") :
    login st usernameRaw password client_ip user_agent now auditOk =
      (.loginForm .fieldsRequired, st) := by
  unfold login
  rcases h with h | h <;> simp [h]

/-- Witness for C10 at a whitespace-only username. -/
theorem empty_fields_leave_no_trace_witness :
    login ⟨[], [], none⟩ "   " "pw" "ip" "ua" 0 true =
      (.loginForm .fieldsRequired, ⟨[], [], none⟩) :=
  empty_fields_leave_no_trace ⟨[], [], none⟩ "   " "pw" "ip" "ua" 0 true (Or.inl (by decide))

/-- Claim C8: a failure to persist the audit record is rolled back and
swallowed inside `log_login_attempt`, and the login flow's outcome — the
rendered view, the account table and the session — is identical whether the
audit write succeeds or fails. -/
theorem audit_failure_never_propagates (st : AppState)
    (usernameRaw password client_ip user_agent : String) (now : Nat)
    (username : String) (success : Bool) (A : List LoginAttempt) :
    log_login_attempt A username success client_ip user_agent false = A ∧
    (login st usernameRaw password client_ip user_agent now true).1 =
      (login st usernameRaw password client_ip user_agent now false).1 ∧
    (login st usernameRaw password client_ip user_agent now true).2.users =
      (login st usernameRaw password client_ip user_agent now false).2.users ∧
    (login st usernameRaw password client_ip user_agent now true).2.session_user =
      (login st usernameRaw password client_ip user_agent now false).2.session_user := by
  refine ⟨rfl, ?_, ?_, ?_⟩ <;>
    · unfold login
      dsimp only
      repeat' split
      all_goals rfl

/-- Claim C1 fails on the code: a login attempt with an unknown username ends
in an uncaught TypeError (routes.py line 197 passes four positional arguments
to the three-parameter `log_login_attempt`) with no audit record appended; the
pending-approval branch raises the same way (line 203); and the Locked
short-circuit branch appends no audit record at all. -/
theorem login_audit_gaps :
    login ⟨[], [], none⟩ "ghost" "pw" "ip" "ua" 5 true = (.typeError, ⟨[], [], none⟩) ∧
    (login ⟨[⟨2, "bob", "bob@example.com", "hunter2hunter2hu", 0, none, false, true, false⟩],
        [], none⟩ "bob" "pw" "ip" "ua" 5 true).1 = .typeError ∧
    (login ⟨[⟨2, "bob", "bob@example.com", "hunter2hunter2hu", 0, none, false, true, false⟩],
        [], none⟩ "bob" "pw" "ip" "ua" 5 true).2.attempts = [] ∧
    (login ⟨[⟨3, "carol", "c@example.com", "hunter2hunter2hu", 10, some 60, true, true, false⟩],
        [], none⟩ "carol" "pw" "ip" "ua" 5 true).2.attempts = [] := by decide

/-- Claim C3 fails on the code: a login whose username matches no account
does not complete normally — the four-argument call to `log_login_attempt`
on routes.py line 197 raises TypeError before any record is built, so no
"not found" audit entry is written and no generic message is flashed. -/
theorem login_not_found_raises :
    login ⟨[⟨1, "alice", "alice@example.com", "hunter2hunter2hu", 0, none, true, true, false⟩],
        [], none⟩ "ghost" "pw" "ip" "ua" 0 true =
      (.typeError,
       ⟨[⟨1, "alice", "alice@example.com", "hunter2hunter2hu", 0, none, true, true, false⟩],
        [], none⟩) := by decide

/-- Claim C6: a successful login (correct password on an approved, unlocked
account) resets `failed_login_attempts` to 0 and clears `locked_until`,
whatever their prior values, and establishes the session. -/
theorem successful_login_resets (u : User) (password client_ip user_agent : String)
    (t : Nat) (auditOk : Bool) (A : List LoginAttempt) (sess : Option Nat)
    (ht : pyStrip u.username = u.username) (hne : u.username ≠ "")
    (hpw : password ≠ "") (ha : u.is_approved = true)
    (hnl : u.is_locked t = false) (hck : u.check_password password = true) :
    login ⟨[u], A, sess⟩ u.username password client_ip user_agent t auditOk =
      (.dashboardRedirect u.username,
       ⟨[{ u with failed_login_attempts := 0, locked_until := none }],
        log_login_attempt A u.username true client_ip user_agent auditOk,
        some u.id⟩) := by
  unfold login
  rw [ht]
  simp [hne, hpw, findUser, ha, hnl, hck, updateUser, User.reset_failed_logins]

/-- Witness for C6: a successful login at count 7 with a stale lock timestamp. -/
theorem successful_login_resets_witness :
    login ⟨[⟨1, "alice", "alice@example.com", "hunter2hunter2hu", 7, some 3, true, true, false⟩],
        [], none⟩ "alice" "hunter2hunter2hu" "ip" "ua" 5 true =
      (.dashboardRedirect "alice",
       ⟨[⟨1, "alice", "alice@example.com", "hunter2hunter2hu", 0, none, true, true, false⟩],
        [⟨"alice", "ip", true, "ua"⟩], some 1⟩) :=
  successful_login_resets
    ⟨1, "alice", "alice@example.com", "hunter2hunter2hu", 7, some 3, true, true, false⟩
    "hunter2hunter2hu" "ip" "ua" 5 true [] none
    (by decide) (by decide) (by decide) rfl (by decide) (by decide)

/-- Claim C7: the admin reset-password route, when its validation gates pass,
installs the new password hash, zeroes `failed_login_attempts` and clears
`locked_until`, for every prior state of the target account — in particular
for an account locked arbitrarily far into the future. -/
theorem force_reset_clears_lock (admin target : User) (new_password confirm_password : String)
    (hadm : admin.is_admin = true)
    (hne : new_password ≠ "") (hce : confirm_password ≠ "")
    (heq : new_password = confirm_password)
    (hlen : ¬ new_password.length < 16)
    (hcx : ¬ reset_complexity_count new_password < 3) :
    reset_password (some admin) target new_password confirm_password =
      (.success,
       { target with
           password_hash := generate_password_hash new_password
           failed_login_attempts := 0
           locked_until := none }) := by
  subst heq
  unfold reset_password
  simp [hadm, hne, hlen, hcx]

/-- Witness for C7: resetting an account locked until minute 1000000. -/
theorem force_reset_clears_lock_witness :
    reset_password
      (some ⟨9, "root", "root@example.com", "Adm1n!Adm1n!Adm1n!", 0, none, true, true, true⟩)
      ⟨3, "carol", "c@example.com", "oldhash", 10, some 1000000, true, true, false⟩
      "Aa1!Aa1!Aa1!Aa1!" "Aa1!Aa1!Aa1!Aa1!" =
    (.success, ⟨3, "carol", "c@example.com", "Aa1!Aa1!Aa1!Aa1!", 0, none, true, true, false⟩) :=
  force_reset_clears_lock
    ⟨9, "root", "root@example.com", "Adm1n!Adm1n!Adm1n!", 0, none, true, true, true⟩
    ⟨3, "carol", "c@example.com", "oldhash", 10, some 1000000, true, true, false⟩
    "Aa1!Aa1!Aa1!Aa1!" "Aa1!Aa1!Aa1!Aa1!"
    rfl (by decide) (by decide) rfl (by decide) (by decide)

theorem wrong_attempt_state (u : User) (password client_ip user_agent : String)
    (A : List LoginAttempt) (sess : Option Nat) (t : Nat) (auditOk : Bool)
    (ht : pyStrip u.username = u.username) (hne : u.username ≠ "")
    (hpw : password ≠ "") (ha : u.is_approved = true)
    (hnl : u.is_locked t = false) (hw : u.check_password password = false) :
    (login ⟨[u], A, sess⟩ u.username password client_ip user_agent t auditOk).2 =
      ⟨[u.increment_failed_login t],
       log_login_attempt A u.username false client_ip user_agent auditOk, sess⟩ := by
  unfold login
  rw [ht]
  simp [hne, hpw, findUser, ha, hnl, hw, updateUser, User.increment_failed_login]

theorem wrong_run (u : User) (password client_ip user_agent : String)
    (ht : pyStrip u.username = u.username) (hne : u.username ≠ "")
    (hpw : password ≠ "") (ha : u.is_approved = true)
    (hw : u.password_hash ≠ password) :
    ∀ (ts : List Nat) (k : Nat) (A : List LoginAttempt) (sess : Option Nat),
      k + ts.length ≤ 9 →
      loginTimes ⟨[{ u with failed_login_attempts := k, locked_until := none }], A, sess⟩
          u.username password client_ip user_agent true ts =
        ⟨[{ u with failed_login_attempts := k + ts.length, locked_until := none }],
         A ++ List.replicate ts.length (⟨u.username, client_ip, false, user_agent⟩ : LoginAttempt),
         sess⟩ := by
  intro ts
  induction ts with
  | nil =>
      intro k A sess hk
      simp [loginTimes]
  | cons t ts ih =>
      intro k A sess hk
      simp only [loginTimes]
      have hw2 : ({ u with failed_login_attempts := k, locked_until := none } : User).check_password password = false := by
        simp [User.check_password, generate_password_hash, hw]
      have hstep := wrong_attempt_state
        { u with failed_login_attempts := k, locked_until := none }
        password client_ip user_agent A sess t true ht hne hpw ha rfl hw2
      rw [hstep]
      have hincr : ({ u with failed_login_attempts := k, locked_until := none } : User).increment_failed_login t
          = { u with failed_login_attempts := k + 1, locked_until := none } := by
        have h10 : ¬ 10 ≤ k + 1 := by
          simp at hk
          omega
        simp [User.increment_failed_login, h10]
      rw [hincr]
      have hrec := ih (k + 1) (log_login_attempt A u.username false client_ip user_agent true) sess
        (by simp only [List.length_cons] at hk; omega)
      have harith : k + 1 + ts.length = k + (t :: ts).length := by
        simp only [List.length_cons]
        omega
      rw [hrec, harith]
      congr 1
      simp [log_login_attempt, List.replicate_succ, List.append_assoc]

/-- Claim C2: each wrong-password attempt on an unlocked approved account
increments `failed_login_attempts` by exactly 1; nine consecutive failures
starting from 0 leave the account unlocked with count 9; the tenth sets
`locked_until = now + 30` minutes; and any attempt while `now < locked_until`
is rejected with the lock notice without touching the account. -/
theorem lockout_progression (u : User) (password client_ip user_agent : String)
    (ts : List Nat) (t10 : Nat)
    (ht : pyStrip u.username = u.username) (hne : u.username ≠ "")
    (hpw : password ≠ "") (ha : u.is_approved = true)
    (h0 : u.failed_login_attempts = 0) (hl : u.locked_until = none)
    (hw : u.password_hash ≠ password) (h9 : ts.length = 9) :
    (∀ (v : User) (t : Nat) (A : List LoginAttempt) (sess : Option Nat),
        pyStrip v.username = v.username → v.username ≠ "" → v.is_approved = true →
        v.is_locked t = false → v.password_hash ≠ password →
        (login ⟨[v], A, sess⟩ v.username password client_ip user_agent t true).2.users =
          [v.increment_failed_login t] ∧
        (v.increment_failed_login t).failed_login_attempts = v.failed_login_attempts + 1) ∧
    (loginTimes ⟨[u], [], none⟩ u.username password client_ip user_agent true ts).users =
      [{ u with failed_login_attempts := 9, locked_until := none }] ∧
    (login (loginTimes ⟨[u], [], none⟩ u.username password client_ip user_agent true ts)
        u.username password client_ip user_agent t10 true).2.users =
      [{ u with failed_login_attempts := 10, locked_until := some (t10 + 30) }] ∧
    (∀ (v : User) (tL tNow : Nat) (A : List LoginAttempt) (sess : Option Nat) (pw : String),
        pyStrip v.username = v.username → v.username ≠ "" → pw ≠ "" →
        v.is_approved = true → v.locked_until = some tL → tNow < tL →
        login ⟨[v], A, sess⟩ v.username pw client_ip user_agent tNow true =
          (.loginForm (.lockedNotice tL), ⟨[v], A, sess⟩)) := by
  have hu0 : ({ u with failed_login_attempts := 0, locked_until := none } : User) = u := by
    cases u
    simp_all
  have hrun := wrong_run u password client_ip user_agent ht hne hpw ha hw ts 0 [] none
    (by omega)
  rw [hu0, h9] at hrun
  simp only [Nat.zero_add, List.nil_append] at hrun
  refine ⟨?_, ?_, ?_, ?_⟩
  · intro v t A sess htv hnev hav hnlv hwv
    have hwv2 : v.check_password password = false := by
      simp [User.check_password, generate_password_hash, hwv]
    have := wrong_attempt_state v password client_ip user_agent A sess t true
      htv hnev hpw hav hnlv hwv2
    rw [this]
    exact ⟨rfl, rfl⟩
  · rw [hrun]
  · rw [hrun]
    have hw9 : ({ u with failed_login_attempts := 9, locked_until := none } : User).check_password password = false := by
      simp [User.check_password, generate_password_hash, hw]
    have hstep := wrong_attempt_state
      { u with failed_login_attempts := 9, locked_until := none }
      password client_ip user_agent
      (List.replicate 9 (⟨u.username, client_ip, false, user_agent⟩ : LoginAttempt)) none
      t10 true ht hne hpw ha rfl hw9
    dsimp only at hstep
    rw [hstep]
    simp [User.increment_failed_login]
  · intro v tL tNow A sess pw htv hnev hpwv hav hlv hlt
    have hlocked : v.is_locked tNow = true := by
      simp [User.is_locked, hlv, hlt]
    unfold login
    rw [htv]
    simp [hnev, hpwv, findUser, hav, hlocked, hlv]

/-- Witness for C2: nine failures then the tenth at minute 100 lock until 130. -/
theorem lockout_progression_witness :
    (loginTimes
        ⟨[⟨1, "alice", "alice@example.com", "hunter2hunter2hu", 0, none, true, true, false⟩],
          [], none⟩ "alice" "wrongpassword" "ip" "ua" true [1, 2, 3, 4, 5, 6, 7, 8, 9]).users =
      [⟨1, "alice", "alice@example.com", "hunter2hunter2hu", 9, none, true, true, false⟩] ∧
    (login
        (loginTimes
          ⟨[⟨1, "alice", "alice@example.com", "hunter2hunter2hu", 0, none, true, true, false⟩],
            [], none⟩ "alice" "wrongpassword" "ip" "ua" true [1, 2, 3, 4, 5, 6, 7, 8, 9])
        "alice" "wrongpassword" "ip" "ua" 100 true).2.users =
      [⟨1, "alice", "alice@example.com", "hunter2hunter2hu", 10, some 130, true, true, false⟩] :=
  ⟨(lockout_progression
      ⟨1, "alice", "alice@example.com", "hunter2hunter2hu", 0, none, true, true, false⟩
      "wrongpassword" "ip" "ua" [1, 2, 3, 4, 5, 6, 7, 8, 9] 100
      (by decide) (by decide) (by decide) rfl rfl rfl (by decide) rfl).2.1,
   (lockout_progression
      ⟨1, "alice", "alice@example.com", "hunter2hunter2hu", 0, none, true, true, false⟩
      "wrongpassword" "ip" "ua" [1, 2, 3, 4, 5, 6, 7, 8, 9] 100
      (by decide) (by decide) (by decide) rfl rfl rfl (by decide) rfl).2.2.1⟩

end PodWeb
